import Mathlib

/-!
Shallow embedding of the `log` package of github.com/ViaQ/logerr
(src/log/log.go), together with the parts of the sink and structured-error
layers that the facade touches.  The facade code is translated from the
source; the sink constructor and its two in-place mutators, and the
structured-error constructors, are not under src/ and are modelled from the
spec where noted.
-/

namespace Logerr

/-- An `io.Writer` value, identified abstractly.  `Writer.stdout` stands for
`os.Stdout`; `Writer.w i` stands for any other writer. -/
inductive Writer where
  | stdout
  | w (id : Nat)
deriving DecidableEq, Repr

/-- An encoder value.  `Encoder.json` stands for `JSONEncoder` (the zero
value `JSONEncoder\x7b\x7d` used by the facade); `Encoder.custom i` stands for any
substituted encoder. -/
inductive Encoder where
  | json
  | custom (id : Nat)
deriving DecidableEq, Repr

/-- Modelled from the spec: the kverrors structured error — a message with
an ordered key/value list and an optional wrapped cause.  `KVError.new m`
is `kverrors.New(m)` (no fields, no cause); `KVError.add e kvs` is
`kverrors.Add(e, kvs...)` (wraps `e` as cause, attaches fields).  The
kverrors source file is not under src/. -/
inductive KVError where
  | new (msg : String)
  | add (cause : KVError) (kvs : List (String × String))
deriving DecidableEq, Repr

/-- Model of `var ErrUnknownLoggerType = kverrors.New("unknown error type")`
(src/log/log.go:14). -/
def ErrUnknownLoggerType : KVError := KVError.new "unknown error type"

/-- A Go `error` value as seen by the facade: either a structured kverrors
value or some opaque error. -/
inductive GoErr where
  | kv (e : KVError)
  | plain (s : String)
deriving DecidableEq, Repr

/-- The `LogSink` state: component name, output destination, verbosity
threshold, encoder, and accumulated base key/value fields (flattened,
order-preserving).  Field values are carried as strings. -/
structure LogSink where
  name : String
  output : Writer
  verbosity : Int
  encoder : Encoder
  baseFields : List String
deriving DecidableEq, Repr

/-- Modelled from the spec: `NewLogSink(component, output, verbosity,
encoder, keysAndValues...)` builds a sink holding exactly these fields
(spec sections 3 and 4.2; the sink source file is not under src/). -/
def NewLogSink (name : String) (output : Writer) (verbosity : Int)
    (encoder : Encoder) (keysAndValues : List String) : LogSink :=
  { name := name, output := output, verbosity := verbosity,
    encoder := encoder, baseFields := keysAndValues }

/-- Modelled from the spec: `Enabled(level)` returns level ≤ current
verbosity threshold, with no side effects (spec section 4.2). -/
def LogSink.enabled (ls : LogSink) (level : Int) : Bool :=
  level ≤ ls.verbosity

/-- Modelled from the spec: `SetVerbosity(level)` is an in-place mutator of
the verbosity threshold (spec section 4.2). -/
def LogSink.setVerbosity (ls : LogSink) (v : Int) : LogSink :=
  { ls with verbosity := v }

/-- Modelled from the spec: `SetOutput(writer)` is an in-place mutator of
the output destination (spec section 4.2). -/
def LogSink.setOutput (ls : LogSink) (w : Writer) : LogSink :=
  { ls with output := w }

/-- Modelled from the spec: `WithValues` returns a new sink with the fields
appended to the base field list, order preserved, no dedup (spec 4.2). -/
def LogSink.withValues (ls : LogSink) (kvs : List String) : LogSink :=
  { ls with baseFields := ls.baseFields ++ kvs }

/-- Modelled from the spec: `WithName(segment)` returns a new sink whose
name is the current name joined to the segment with the fixed separator,
or just the segment when the current name is empty (spec 4.2). -/
def LogSink.withName (ls : LogSink) (seg : String) : LogSink :=
  { ls with name := if ls.name = "" then seg else ls.name ++ "." ++ seg }

/-- The dynamic sink held by a `logr.Logger`: either a `*LogSink` of this
package, or some foreign implementation of the logr sink interface,
identified only by its type name. -/
inductive Sink where
  | logSink (ls : LogSink)
  | other (typ : String)
deriving DecidableEq, Repr

/-- Model of `sink.Enabled(level)` as called through logr.  Foreign sinks are
abstracted as always enabled; no claim depends on their behavior. -/
def Sink.enabledAt : Sink → Int → Bool
  | .logSink ls, lvl => ls.enabled lvl
  | .other _, _ => true

/-- Derivation through `sink.WithValues`.  Foreign sink behavior is
abstracted as the identity on the type tag. -/
def Sink.withValuesS : Sink → List String → Sink
  | .logSink ls, kvs => .logSink (ls.withValues kvs)
  | .other t, _ => .other t

/-- Derivation through `sink.WithName`.  Foreign sink behavior is
abstracted as the identity on the type tag. -/
def Sink.withNameS : Sink → String → Sink
  | .logSink ls, n => .logSink (ls.withName n)
  | .other t, _ => .other t

/-- A log record built for one emission (spec section 3): level, message,
logger name, flattened base-plus-call fields, optional attached error. -/
structure LogRecord where
  level : Int
  msg : String
  name : String
  fields : List String
  err : Option GoErr
deriving DecidableEq, Repr

/-- Model of `sink.Info(level, msg, kvs...)`: a `*LogSink` builds a record merging
base fields with call-site fields and writes it when enabled (spec 4.2);
foreign sinks are abstracted as producing no modelled record. -/
def Sink.infoCall : Sink → Int → String → List String → Option LogRecord
  | .logSink ls, lvl, msg, kvs =>
      if ls.enabled lvl then
        some { level := lvl, msg := msg, name := ls.name,
               fields := ls.baseFields ++ kvs, err := none }
      else none
  | .other _, _, _, _ => none

/-- Model of `sink.Error(err, msg, kvs...)`: always emitted regardless of the
verbosity threshold (spec 4.2); foreign sinks abstracted as above. -/
def Sink.errorCall : Sink → GoErr → String → List String → Option LogRecord
  | .logSink ls, e, msg, kvs =>
      some { level := 0, msg := msg, name := ls.name,
             fields := ls.baseFields ++ kvs, err := some e }
  | .other _, _, _, _ => none

/-- The `logr.Logger` value: a sink plus an accumulated verbosity level
(go-logr/logr, the fixed external leveled-logger contract). -/
structure Logger where
  sink : Sink
  level : Int
deriving DecidableEq, Repr

/-- Model of `logr.New(sink)`: wraps a sink at level 0. -/
def logrNew (s : Sink) : Logger := { sink := s, level := 0 }

/-- Model of `logger.GetSink()`. -/
def Logger.getSink (l : Logger) : Sink := l.sink

/-- Model of `logger.V(n)`: a derived logger with the level added; the sink is
shared unchanged. -/
def Logger.v (l : Logger) (n : Int) : Logger :=
  { l with level := l.level + n }

/-- Model of `logger.WithValues(kvs...)`: derived logger over the derived sink. -/
def Logger.withValues (l : Logger) (kvs : List String) : Logger :=
  { l with sink := l.sink.withValuesS kvs }

/-- Model of `logger.WithName(n)`: derived logger over the derived sink. -/
def Logger.withName (l : Logger) (n : String) : Logger :=
  { l with sink := l.sink.withNameS n }

/-- Model of `logger.Info(msg, kvs...)`: calls `sink.Info(level, msg, kvs...)` when
the sink is enabled at the logger's level. -/
def Logger.info (l : Logger) (msg : String) (kvs : List String) :
    Option LogRecord :=
  if l.sink.enabledAt l.level then l.sink.infoCall l.level msg kvs else none

/-- Model of `logger.Error(err, msg, kvs...)`: calls `sink.Error` unconditionally. -/
def Logger.error (l : Logger) (e : GoErr) (msg : String) (kvs : List String) :
    Option LogRecord :=
  l.sink.errorCall e msg kvs

end Logerr

namespace Log

open Logerr

/-- A configuration option, `type Option func(*LogSink)` of the source,
modelled as a sink transformation applied before the sink is installed. -/
def LogOption : Type := LogSink → LogSink

/-- The package-level mutable state of src/log/log.go: the two default
variables (src/log/log.go:18-19) and the installed logger
(src/log/log.go:22). -/
structure FacadeState where
  defaultOutput : Writer
  defautLogLevel : Int
  logger : Logger

/-- The state before any call: `defaultOutput = os.Stdout`,
`defautLogLevel = 0`, and
`logger = logr.New(NewLogSink("", os.Stdout, 0, JSONEncoder\x7b\x7d))`
(src/log/log.go:17-23). -/
def initialState : FacadeState :=
  { defaultOutput := .stdout, defautLogLevel := 0,
    logger := logrNew (.logSink (NewLogSink "" .stdout 0 .json [])) }

/-- Model of `useLogger(l)`: sets the logger field, no locking of its own
(src/log/log.go:71-76). -/
def useLoggerNoLock (l : Logger) (st : FacadeState) : FacadeState :=
  { st with logger := l }

/-- Model of `InitWithOptions(component, opts, keysAndValues...)`
(src/log/log.go:40-53): builds a fresh sink from the component, the
`defaultOutput` variable, verbosity literal 0, `JSONEncoder\x7b\x7d` and the
key/value pairs, applies each option in order, and installs
`logr.New` of the resulting sink. -/
def InitWithOptions (component : String) (opts : List LogOption)
    (keysAndValues : List String) (st : FacadeState) : FacadeState :=
  let ls := NewLogSink component st.defaultOutput 0 .json keysAndValues
  let ls := opts.foldl (fun s o => o s) ls
  useLoggerNoLock (logrNew (.logSink ls)) st

/-- Model of `Init(component, keysAndValues...)` (src/log/log.go:30-32): calls
`InitWithOptions(component, nil, keysAndValues...)`. -/
def Init (component : String) (keysAndValues : List String)
    (st : FacadeState) : FacadeState :=
  InitWithOptions component [] keysAndValues st

/-- Model of `MustInit` (src/log/log.go:35-37): calls `Init`; there is no error to
panic on. -/
def MustInit (component : String) (keysAndValues : List String)
    (st : FacadeState) : FacadeState :=
  Init component keysAndValues st

/-- Model of `MustInitWithOptions` (src/log/log.go:56-58): calls
`InitWithOptions`. -/
def MustInitWithOptions (component : String) (opts : List LogOption)
    (keysAndValues : List String) (st : FacadeState) : FacadeState :=
  InitWithOptions component opts keysAndValues st

/-- Model of `GetLogger()` (src/log/log.go:61-63): returns the installed logger and
leaves the state alone. -/
def GetLogger (st : FacadeState) : Logger × FacadeState :=
  (st.logger, st)

/-- Model of `UseLogger(l)` (src/log/log.go:66-70): installs `l` under the write
lock. -/
def UseLogger (l : Logger) (st : FacadeState) : FacadeState :=
  useLoggerNoLock l st

/-- Model of `V(level)` (src/log/log.go:82-86): returns `logger.V(level)` under the
read lock. -/
def V (level : Int) (st : FacadeState) : Logger × FacadeState :=
  (st.logger.v level, st)

/-- Model of `Info(msg, keysAndValues...)` (src/log/log.go:94-98): calls
`logger.Info(msg, keysAndValues...)` under the read lock. -/
def Info (msg : String) (keysAndValues : List String) (st : FacadeState) :
    Option LogRecord × FacadeState :=
  (st.logger.info msg keysAndValues, st)

/-- Model of `Error(err, msg, keysAndValues...)` (src/log/log.go:108-112): calls
`logger.Error(err, msg, keysAndValues...)` under the read lock. -/
def Error (err : GoErr) (msg : String) (keysAndValues : List String)
    (st : FacadeState) : Option LogRecord × FacadeState :=
  (st.logger.error err msg keysAndValues, st)

/-- Model of `WithValues(keysAndValues...)` (src/log/log.go:116-120): returns
`logger.WithValues(keysAndValues...)` under the read lock. -/
def WithValues (keysAndValues : List String) (st : FacadeState) :
    Logger × FacadeState :=
  (st.logger.withValues keysAndValues, st)

/-- Model of `WithName(name)` (src/log/log.go:127-131): returns
`logger.WithName(name)` under the read lock. -/
def WithName (name : String) (st : FacadeState) : Logger × FacadeState :=
  (st.logger.withName name, st)

/-- The error value built by the default branches of `SetLogLevel` and
`SetOutput` (src/log/log.go:140-145 and 157-162):
`kverrors.Add(ErrUnknownLoggerType, "logger_type", fmt.Sprintf("%T", logger),
"expected_type", fmt.Sprintf("%T", &LogSink\x7b\x7d))`.  Both format verbs are
constants: `logr.Logger` is a struct type and `&LogSink\x7b\x7d` is
`*log.LogSink`. -/
def unknownLoggerErr : KVError :=
  KVError.add ErrUnknownLoggerType
    [("logger_type", "logr.Logger"), ("expected_type", "*log.LogSink")]

/-- Model of `SetLogLevel(v)` (src/log/log.go:134-148): under the write lock,
switches on `logger.GetSink()`; a `*LogSink` gets `SetVerbosity(v)` and nil
is returned, anything else returns the enriched unknown-logger error. -/
def SetLogLevel (v : Int) (st : FacadeState) :
    Option KVError × FacadeState :=
  match st.logger.getSink with
  | .logSink ls =>
      (none, { st with logger := { st.logger with sink := .logSink (ls.setVerbosity v) } })
  | .other _ => (some unknownLoggerErr, st)

/-- Model of `SetOutput(w)` (src/log/log.go:151-165): under the read lock, switches
on `logger.GetSink()`; a `*LogSink` gets `SetOutput(w)` and nil is
returned, anything else returns the enriched unknown-logger error. -/
def SetOutput (w : Writer) (st : FacadeState) :
    Option KVError × FacadeState :=
  match st.logger.getSink with
  | .logSink ls =>
      (none, { st with logger := { st.logger with sink := .logSink (ls.setOutput w) } })
  | .other _ => (some unknownLoggerErr, st)

/-- The exported facade operations, as names. -/
inductive FacadeOp where
  | init | mustInit | initWithOptions | mustInitWithOptions | getLogger
  | useLogger | v | info | error | withValues | withName
  | setLogLevel | setOutput
deriving DecidableEq, Repr

/-- The lock an operation holds for the duration of its body. -/
inductive LockMode where
  | read | write | nolock
deriving DecidableEq, Repr

/-- The lock acquired by each exported operation, read off
src/log/log.go: `InitWithOptions` takes `mtx.Lock` (line 41) and `Init`,
`MustInit`, `MustInitWithOptions` run inside that call; `UseLogger` takes
`mtx.Lock` (line 67); `GetLogger` takes no lock (lines 61-63); `V`,
`Info`, `Error`, `WithValues`, `WithName` take `mtx.RLock`; `SetLogLevel`
takes `mtx.Lock` (line 135); `SetOutput` takes `mtx.RLock` (line 152). -/
def lockMode : FacadeOp → LockMode
  | .init => .write
  | .mustInit => .write
  | .initWithOptions => .write
  | .mustInitWithOptions => .write
  | .getLogger => .nolock
  | .useLogger => .write
  | .v => .read
  | .info => .read
  | .error => .read
  | .withValues => .read
  | .withName => .read
  | .setLogLevel => .write
  | .setOutput => .read

/-- One facade call with its arguments, for stating trace invariants. -/
inductive FacadeCall where
  | init (c : String) (kvs : List String)
  | mustInit (c : String) (kvs : List String)
  | initWithOptions (c : String) (opts : List LogOption) (kvs : List String)
  | mustInitWithOptions (c : String) (opts : List LogOption) (kvs : List String)
  | getLogger
  | useLogger (l : Logger)
  | v (n : Int)
  | info (msg : String) (kvs : List String)
  | error (e : GoErr) (msg : String) (kvs : List String)
  | withValues (kvs : List String)
  | withName (n : String)
  | setLogLevel (n : Int)
  | setOutput (w : Writer)

/-- The state after one facade call (return values dropped). -/
def applyCall : FacadeCall → FacadeState → FacadeState
  | .init c kvs, st => Init c kvs st
  | .mustInit c kvs, st => MustInit c kvs st
  | .initWithOptions c opts kvs, st => InitWithOptions c opts kvs st
  | .mustInitWithOptions c opts kvs, st => MustInitWithOptions c opts kvs st
  | .getLogger, st => (GetLogger st).2
  | .useLogger l, st => UseLogger l st
  | .v n, st => (V n st).2
  | .info msg kvs, st => (Info msg kvs st).2
  | .error e msg kvs, st => (Error e msg kvs st).2
  | .withValues kvs, st => (WithValues kvs st).2
  | .withName n, st => (WithName n st).2
  | .setLogLevel n, st => (SetLogLevel n st).2
  | .setOutput w, st => (SetOutput w st).2

/-- The state after a sequence of facade calls starting from `st`. -/
def runCalls (calls : List FacadeCall) (st : FacadeState) : FacadeState :=
  calls.foldl (fun s c => applyCall c s) st

end Log

namespace Log

open Logerr

/-- A facade state whose installed logger wraps a foreign (non-`*LogSink`)
sink, as produced by `UseLogger` with an arbitrary logr logger. -/
def foreignState : FacadeState :=
  { defaultOutput := .stdout, defautLogLevel := 0,
    logger := logrNew (.other "discardSink") }

theorem applyCall_preserves_defaults (call : FacadeCall) (st : FacadeState) :
    (applyCall call st).defaultOutput = st.defaultOutput
    ∧ (applyCall call st).defautLogLevel = st.defautLogLevel := by
  obtain ⟨dout, dlvl, ⟨s, lvl⟩⟩ := st
  cases call <;> cases s <;> exact ⟨rfl, rfl⟩

theorem runCalls_preserves_defaults (calls : List FacadeCall) (st : FacadeState) :
    (runCalls calls st).defaultOutput = st.defaultOutput
    ∧ (runCalls calls st).defautLogLevel = st.defautLogLevel := by
  induction calls generalizing st with
  | nil => exact ⟨rfl, rfl⟩
  | cons c cs ih =>
      have h := applyCall_preserves_defaults c st
      have h2 := ih (applyCall c st)
      exact ⟨h2.1.trans h.1, h2.2.trans h.2⟩

theorem foldl_opts_preserve (opts : List LogOption)
    (h : ∀ o ∈ opts, ∀ s : LogSink,
      (o s).output = s.output ∧ (o s).verbosity = s.verbosity)
    (s : LogSink) :
    (opts.foldl (fun s o => o s) s).output = s.output
    ∧ (opts.foldl (fun s o => o s) s).verbosity = s.verbosity := by
  induction opts generalizing s with
  | nil => exact ⟨rfl, rfl⟩
  | cons o os ih =>
      have h1 := h o (List.mem_cons_self o os) s
      have h2 := ih (fun p hp t => h p (List.mem_cons_of_mem o hp) t) (o s)
      exact ⟨h2.1.trans h1.1, h2.2.trans h1.2⟩

/-- C1: for every verbosity and writer, `SetLogLevel` and `SetOutput`
return an error exactly when the installed logger's sink is not a
`*LogSink`; in that case the returned error is `ErrUnknownLoggerType`
enriched with the logger_type and expected_type pairs and the facade state
is unchanged; when the sink is a `*LogSink`, the corresponding mutation is
applied to it and nil is returned. -/
theorem setLogLevel_setOutput_spec (v : Int) (w : Writer) (st : FacadeState) :
    ((SetLogLevel v st).1 = none ↔ ∃ ls, st.logger.sink = Sink.logSink ls)
    ∧ ((SetOutput w st).1 = none ↔ ∃ ls, st.logger.sink = Sink.logSink ls)
    ∧ (∀ ls, st.logger.sink = Sink.logSink ls →
        SetLogLevel v st = (none,
          { st with logger := { st.logger with sink := Sink.logSink (ls.setVerbosity v) } })
        ∧ SetOutput w st = (none,
          { st with logger := { st.logger with sink := Sink.logSink (ls.setOutput w) } }))
    ∧ (∀ t, st.logger.sink = Sink.other t →
        SetLogLevel v st = (some unknownLoggerErr, st)
        ∧ SetOutput w st = (some unknownLoggerErr, st)) := by
  obtain ⟨dout, dlvl, lg⟩ := st
  obtain ⟨s, lvl⟩ := lg
  cases s with
  | logSink ls =>
      refine ⟨by simp [SetLogLevel, Logger.getSink], by simp [SetOutput, Logger.getSink], ?_, ?_⟩
      · intro ls2 h
        injection h with h
        subst h
        exact ⟨rfl, rfl⟩
      · intro t h
        exact absurd h (by simp)
  | other t0 =>
      refine ⟨by simp [SetLogLevel, Logger.getSink], by simp [SetOutput, Logger.getSink], ?_, ?_⟩
      · intro ls2 h
        exact absurd h (by simp)
      · intro t h
        exact ⟨rfl, rfl⟩

theorem setLogLevel_setOutput_spec_witness :
    SetLogLevel 3 foreignState = (some unknownLoggerErr, foreignState)
    ∧ SetOutput (Writer.w 1) foreignState = (some unknownLoggerErr, foreignState) :=
  (setLogLevel_setOutput_spec 3 (Writer.w 1) foreignState).2.2.2 "discardSink" rfl

/-- C2: the lock discipline read off the source: Init, MustInit,
InitWithOptions, MustInitWithOptions, UseLogger and SetLogLevel hold the
exclusive write lock for the duration of the call, but SetOutput holds
only the read lock (src/log/log.go:152), so it does not serialize against
the concurrent readers, contrary to the claim. -/
theorem setOutput_lock_discipline :
    lockMode .init = .write ∧ lockMode .mustInit = .write
    ∧ lockMode .initWithOptions = .write ∧ lockMode .mustInitWithOptions = .write
    ∧ lockMode .useLogger = .write ∧ lockMode .setLogLevel = .write
    ∧ lockMode .setOutput = .read := by
  exact ⟨rfl, rfl, rfl, rfl, rfl, rfl, rfl⟩

/-- C3: before any initialization call the installed logger already wraps a
`LogSink` with empty component name, output `os.Stdout`, verbosity 0 and
the JSON encoder, and the sink-typed mutators succeed on it for every
argument. -/
theorem initial_logger_default :
    initialState.logger = logrNew (Sink.logSink
      { name := "", output := .stdout, verbosity := 0,
        encoder := .json, baseFields := [] })
    ∧ (∀ v : Int, (SetLogLevel v initialState).1 = none)
    ∧ (∀ w : Writer, (SetOutput w initialState).1 = none) :=
  ⟨rfl, fun _ => rfl, fun _ => rfl⟩

/-- C4: `InitWithOptions c opts kvs` installs a logger over a fresh sink
built from `c`, the default output, verbosity 0, the JSON encoder and base
fields `kvs`, after folding the options over it in list order; and `Init`
is `InitWithOptions` with no options. -/
theorem initWithOptions_spec (c : String) (opts : List LogOption)
    (kvs : List String) (st : FacadeState) :
    InitWithOptions c opts kvs st
      = { st with logger := logrNew (Sink.logSink
            (opts.foldl (fun s o => o s) (NewLogSink c st.defaultOutput 0 .json kvs))) }
    ∧ Init c kvs st = InitWithOptions c [] kvs st :=
  ⟨rfl, rfl⟩

/-- C5: the package-level Info and Error invoke the installed logger's Info
and Error with exactly the same arguments, WithValues and WithName return
the logger derived from the installed logger by the corresponding
operation, and none of the four changes the installed logger. -/
theorem facade_delegation (msg : String) (e : GoErr) (kvs : List String)
    (n : String) (st : FacadeState) :
    Info msg kvs st = (st.logger.info msg kvs, st)
    ∧ Error e msg kvs st = (st.logger.error e msg kvs, st)
    ∧ WithValues kvs st = (st.logger.withValues kvs, st)
    ∧ WithName n st = (st.logger.withName n, st) :=
  ⟨rfl, rfl, rfl, rfl⟩

/-- C6: `V n` returns the logger derived by `logger.V(n)` from the
installed logger, the facade state is returned unchanged, and the derived
logger shares the same underlying sink. -/
theorem v_derives_without_mutation (n : Int) (st : FacadeState) :
    V n st = (st.logger.v n, st)
    ∧ (V n st).2 = st
    ∧ (st.logger.v n).sink = st.logger.sink :=
  ⟨rfl, rfl, rfl⟩

/-- C7: for every sink with threshold T and every level L, `Enabled(L)`
returns true iff L ≤ T; `enabled` is a pure function of the sink. -/
theorem enabled_iff_le (ls : LogSink) (level : Int) :
    ls.enabled level = true ↔ level ≤ ls.verbosity := by
  simp [LogSink.enabled]

theorem enabled_iff_le_witness :
    LogSink.enabled (NewLogSink "c" .stdout 2 .json []) 1 = true :=
  (enabled_iff_le (NewLogSink "c" .stdout 2 .json []) 1).2 (by decide)

/-- C8: installing a logger with `UseLogger` and reading it back with
`GetLogger` returns exactly that logger, and `GetLogger` does not modify
the facade state. -/
theorem useLogger_getLogger_roundtrip (l : Logger) (st : FacadeState) :
    (GetLogger (UseLogger l st)).1 = l
    ∧ (GetLogger (UseLogger l st)).2 = UseLogger l st
    ∧ (GetLogger st).2 = st :=
  ⟨rfl, rfl, rfl⟩

/-- C9: `MustInit` is the same state transformer as `Init`, and
`MustInitWithOptions` the same as `InitWithOptions`; being total functions
of the model, neither has a panic path. -/
theorem must_variants_equal (c : String) (opts : List LogOption)
    (kvs : List String) (st : FacadeState) :
    MustInit c kvs st = Init c kvs st
    ∧ MustInitWithOptions c opts kvs st = InitWithOptions c opts kvs st :=
  ⟨rfl, rfl⟩

/-- C10: no facade call writes `defaultOutput` or `defautLogLevel`, and
after any sequence of facade calls from the initial state, an
`InitWithOptions` whose options preserve the sink's output and verbosity
installs a sink writing to `os.Stdout` with verbosity 0, discarding any
earlier `SetOutput` or `SetLogLevel` effect. -/
theorem defaults_never_written :
    (∀ (call : FacadeCall) (st : FacadeState),
        (applyCall call st).defaultOutput = st.defaultOutput
        ∧ (applyCall call st).defautLogLevel = st.defautLogLevel)
    ∧ ∀ (calls : List FacadeCall) (c : String) (opts : List LogOption)
        (kvs : List String),
        (∀ o ∈ opts, ∀ s : LogSink,
          (o s).output = s.output ∧ (o s).verbosity = s.verbosity) →
        ∃ ls : LogSink,
          (InitWithOptions c opts kvs (runCalls calls initialState)).logger.sink
            = Sink.logSink ls
          ∧ ls.output = Writer.stdout ∧ ls.verbosity = 0 := by
  refine ⟨applyCall_preserves_defaults, ?_⟩
  intro calls c opts kvs h
  refine ⟨_, rfl, ?_, ?_⟩
  · exact (foldl_opts_preserve opts h _).1.trans
      ((runCalls_preserves_defaults calls initialState).1)
  · exact (foldl_opts_preserve opts h _).2

theorem defaults_never_written_witness :
    ∃ ls : LogSink,
      (InitWithOptions "comp" [] ["k", "v"]
          (runCalls [FacadeCall.setOutput (Writer.w 5), FacadeCall.setLogLevel 7]
            initialState)).logger.sink
        = Sink.logSink ls
      ∧ ls.output = Writer.stdout ∧ ls.verbosity = 0 :=
  defaults_never_written.2
    [FacadeCall.setOutput (Writer.w 5), FacadeCall.setLogLevel 7]
    "comp" [] ["k", "v"]
    (fun o ho => absurd ho (List.not_mem_nil o))

end Log
